import Mathlib

/-!
Shallow embedding of `CS200_Lab01/source/Lab-2.cpp`.

The program is a single-threaded OpenGL bootstrap: it creates a debug log
file, initializes GLFW, creates an OpenGL 4.5 context, initializes GLEW,
queries context capabilities into the log, registers input callbacks and
runs a clear/swap/poll frame loop until the window should close.

The embedding threads an explicit `World` state through every modelled
C++ function.  Calls into the GLFW / OpenGL libraries are recorded as
`Event`s in `World.trace`; outcomes of the fallible library calls
(glfwInit, glfwCreateWindow, glewInit, GLEW_VERSION_4_5, opening the log
file) are environment inputs stored in `Env`.  `std::exit` is modelled by
returning `Except.error (exitCode, finalWorld)`.  The unbounded `while`
loop is modelled with explicit fuel.
-/

namespace Lab2

/- GLFW constants, values taken from GLFW/glfw3.h. -/

def GLFW_RELEASE : Int := 0

def GLFW_PRESS : Int := 1

def GLFW_REPEAT : Int := 2

def GLFW_KEY_ESCAPE : Int := 256

def GLFW_MOUSE_BUTTON_LEFT : Int := 0

def GLFW_MOUSE_BUTTON_RIGHT : Int := 1

def GLFW_TRUE : Int := 1

def GLFW_FALSE : Int := 0

def GLFW_CONTEXT_VERSION_MAJOR : Nat := 0x00022002

def GLFW_CONTEXT_VERSION_MINOR : Nat := 0x00022003

def GLFW_OPENGL_PROFILE : Nat := 0x00022008

def GLFW_OPENGL_CORE_PROFILE : Int := 0x00032001

def GLFW_OPENGL_FORWARD_COMPAT : Nat := 0x00022006

def GLFW_DOUBLEBUFFER : Nat := 0x00021010

def GLFW_DEPTH_BITS : Nat := 0x00021005

def GLFW_RED_BITS : Nat := 0x00021001

def GLFW_GREEN_BITS : Nat := 0x00021002

def GLFW_BLUE_BITS : Nat := 0x00021003

def GLFW_ALPHA_BITS : Nat := 0x00021004

def GLFW_CURSOR : Nat := 0x00033001

def GLFW_CURSOR_NORMAL : Int := 0x00034001

/- OpenGL constants, values taken from GL/glew.h. -/

def GL_COLOR_BUFFER_BIT : Nat := 0x00004000

def GL_VENDOR : Nat := 0x1F00

def GL_RENDERER : Nat := 0x1F01

def GL_VERSION : Nat := 0x1F02

def GL_EXTENSIONS : Nat := 0x1F03

def GL_SHADING_LANGUAGE_VERSION : Nat := 0x8B8C

def GL_NUM_EXTENSIONS : Nat := 0x821D

def GL_MAJOR_VERSION : Nat := 0x821B

def GL_MINOR_VERSION : Nat := 0x821C

def GL_MAX_ELEMENTS_VERTICES : Nat := 0x80E8

def GL_MAX_ELEMENTS_INDICES : Nat := 0x80E9

def GL_MAX_GEOMETRY_OUTPUT_VERTICES : Nat := 0x8DE0

def GL_MAX_COMBINED_TEXTURE_IMAGE_UNITS : Nat := 0x8B4D

def GL_MAX_CUBE_MAP_TEXTURE_SIZE : Nat := 0x851C

def GL_MAX_DRAW_BUFFERS : Nat := 0x8824

def GL_MAX_FRAGMENT_UNIFORM_COMPONENTS : Nat := 0x8B49

def GL_MAX_TEXTURE_IMAGE_UNITS : Nat := 0x8872

def GL_MAX_TEXTURE_SIZE : Nat := 0x0D33

def GL_MAX_VARYING_FLOATS : Nat := 0x8B4B

def GL_MAX_VERTEX_ATTRIBS : Nat := 0x8869

def GL_MAX_VERTEX_TEXTURE_IMAGE_UNITS : Nat := 0x8B4C

def GL_MAX_VERTEX_UNIFORM_COMPONENTS : Nat := 0x8B4A

def GL_MAX_VIEWPORT_DIMS : Nat := 0x0D3A

def GL_STEREO : Nat := 0x0C33

/-- GLboolean truth value GL_TRUE (= 1 in the C headers). -/
def GL_TRUE : Bool := true

/-- GLboolean truth value GL_FALSE (= 0 in the C headers). -/
def GL_FALSE : Bool := false

/-- Constant EXIT_FAILURE from cstdlib: a nonzero process exit status. -/
def EXIT_FAILURE : Nat := 1

/-- An input event GLFW may deliver during glfwPollEvents.  A
`closeRequest` is the close-widget click / Alt+F4, which GLFW itself
turns into the window should-close flag. -/
inductive InputEvent where
  | key (key scancode action mods : Int)
  | mouseButton (button action mods : Int)
  | cursorPos (x y : Int)
  | scroll (x y : Int)
  | framebufferResize (width height : Int)
  | closeRequest
deriving DecidableEq

/-- One observable call into the GLFW / OpenGL libraries.  The color
carried by `clearCall` is the clear color in effect when glClear runs. -/
inductive Event where
  | glfwInitCall
  | setErrorCallbackCall
  | windowHintCall (hint : Nat) (value : Int)
  | createWindowCall (width height : Nat) (title : String)
  | makeContextCurrentCall
  | registerCallback (name : String)
  | setInputModeCall
  | glewInitCall
  | getStringCall (pname : Nat)
  | getIntegervCall (pname : Nat) (count : Nat)
  | getBooleanvCall (pname : Nat)
  | getStringiCall (pname : Nat) (index : Nat)
  | clearColorCall (r g b a : Rat)
  | viewportCall (x y w h : Int)
  | clearCall (mask : Nat) (color : Rat × Rat × Rat × Rat)
  | swapBuffersCall
  | pollEventsCall
  | glfwTerminateCall
  | destroyWindowCall
deriving DecidableEq

/-- The environment: outcomes and answers of the external libraries and
of the file system, fixed for one program run.  These are inputs the
C++ program reads but never writes. -/
structure Env where
  glfwInitOk : Bool
  createWindowOk : Bool
  glewInitOk : Bool
  glewSupports45 : Bool
  logOpenable : Bool
  currentTime : String
  buildDate : String
  buildTime : String
  glfwVersionString : String
  glewVersionString : String
  glewErrorString : String
  glStringResult : Nat → String
  glIntResult : Nat → Int
  glIntResult2 : Nat → Int × Int
  glBoolResult : Nat → Bool
  glStringiResult : Nat → Nat → String
  fbWidth : Int
  fbHeight : Int

/-- The full program state: the environment, the mutable GLFW/GL state
the program can affect, the contents of the log file and of standard
error, and the trace of library calls made so far. -/
structure World where
  env : Env
  shouldClose : Bool
  clearColor : Rat × Rat × Rat × Rat
  viewport : Int × Int × Int × Int
  errorCbSet : Bool
  fbsizeCbSet : Bool
  keyCbSet : Bool
  mouseButtonCbSet : Bool
  cursorPosCbSet : Bool
  scrollCbSet : Bool
  hints : List (Nat × Int)
  contextCurrent : Nat
  eventQueue : List (List InputEvent)
  logLines : List String
  stderrLines : List String
  trace : List Event

/-- Record one library call in the trace. -/
def emit (e : Event) (s : World) : World := { s with trace := s.trace ++ [e] }

/-- Opening mode of a std::ofstream: `out` truncates, `app` appends. -/
inductive OpenMode where
  | out
  | app
deriving DecidableEq

/-- The contents an ofstream sees right after opening a file whose
previous contents were `old`. -/
def openFileContents : OpenMode → List String → List String
  | OpenMode.out, _ => []
  | OpenMode.app, old => old

/-- The file-scope log file name, `gl-debug-log.txt`. -/
def g_logfilename : String := "gl-debug-log.txt"

/-- The single line the variadic pack expansion
`(ofs << std::forward<Args>(args) << space, 1)...` produces: each printed
argument followed by one space.  `args` are the printed forms of the
C++ arguments. -/
def joinSpaced (args : List String) : String :=
  String.join (args.map (fun a => a ++ (" ")))

/-- Function `log_to_debug_file(file_name, args...)`: open `file_name` in append
mode; on failure report to standard error and return false; otherwise
write the arguments space-separated as one line, close, return true.
The program only ever passes `g_logfilename`, and the model has a single
log file, so `file_name` does not select a file here. -/
def log_to_debug_file (file_name : String) (args : List String) (s : World) :
    Bool × World :=
  if s.env.logOpenable = false then
    (false, { s with stderrLines := s.stderrLines ++
      [("ERROR: could not open log file ") ++ file_name ++ (" for writing")] })
  else
    (true, { s with logLines :=
      openFileContents OpenMode.app s.logLines ++ [joinSpaced args] })

/-- Function `create_log_file()`: open the log file with `std::ofstream::out`
(truncating), write the current-time line (std::ctime supplies the line
break) and the build stamp line followed by a blank line, close, and
return GL_TRUE; on open failure report to standard error and return
GL_FALSE. -/
def create_log_file (s : World) : Bool × World :=
  if s.env.logOpenable = false then
    (GL_FALSE, { s with stderrLines := s.stderrLines ++
      [("ERROR: could not open log file ") ++ g_logfilename ++ (" for writing")] })
  else
    (GL_TRUE, { s with logLines := openFileContents OpenMode.out s.logLines ++
      [("OpenGL Application Log File local time: ") ++ s.env.currentTime,
       ("Build version: ") ++ s.env.buildDate ++ (" ") ++ s.env.buildTime,
       ("")] })

/- Modelled GLFW / OpenGL primitives. -/

def glfwInit (s : World) : Bool × World :=
  (s.env.glfwInitOk, emit Event.glfwInitCall s)

def glfwSetErrorCallback (s : World) : World :=
  emit Event.setErrorCallbackCall { s with errorCbSet := true }

def glfwWindowHint (hint : Nat) (value : Int) (s : World) : World :=
  emit (Event.windowHintCall hint value) { s with hints := s.hints ++ [(hint, value)] }

/-- glfwCreateWindow: returns a non-null handle (modelled as 1) on
success and NULL (modelled as 0) on failure. -/
def glfwCreateWindow (width height : Nat) (title : String) (s : World) :
    Nat × World :=
  ((if s.env.createWindowOk then 1 else 0),
   emit (Event.createWindowCall width height title) s)

def glfwMakeContextCurrent (pwin : Nat) (s : World) : World :=
  emit Event.makeContextCurrentCall { s with contextCurrent := pwin }

def glfwSetFramebufferSizeCallback (pwin : Nat) (s : World) : World :=
  emit (Event.registerCallback ("fbsize_cb")) { s with fbsizeCbSet := true }

def glfwSetKeyCallback (pwin : Nat) (s : World) : World :=
  emit (Event.registerCallback ("key_cb")) { s with keyCbSet := true }

def glfwSetMouseButtonCallback (pwin : Nat) (s : World) : World :=
  emit (Event.registerCallback ("mousebutton_cb")) { s with mouseButtonCbSet := true }

def glfwSetCursorPosCallback (pwin : Nat) (s : World) : World :=
  emit (Event.registerCallback ("mousepos_cb")) { s with cursorPosCbSet := true }

def glfwSetScrollCallback (pwin : Nat) (s : World) : World :=
  emit (Event.registerCallback ("mousescroll_cb")) { s with scrollCbSet := true }

def glfwSetInputMode (pwin : Nat) (mode : Nat) (value : Int) (s : World) : World :=
  emit Event.setInputModeCall s

def glfwSetWindowShouldClose (pwin : Nat) (v : Bool) (s : World) : World :=
  { s with shouldClose := v }

def glfwWindowShouldClose (pwin : Nat) (s : World) : Bool := s.shouldClose

def glfwGetFramebufferSize (pwin : Nat) (s : World) : (Int × Int) × World :=
  ((s.env.fbWidth, s.env.fbHeight), s)

def glfwSwapBuffers (pwin : Nat) (s : World) : World :=
  emit Event.swapBuffersCall s

def glfwTerminate (s : World) : World := emit Event.glfwTerminateCall s

def glfwDestroyWindow (pwin : Nat) (s : World) : World :=
  emit Event.destroyWindowCall s

def glClearColor (r g b a : Rat) (s : World) : World :=
  emit (Event.clearColorCall r g b a) { s with clearColor := (r, g, b, a) }

def glClear (mask : Nat) (s : World) : World :=
  emit (Event.clearCall mask s.clearColor) s

def glViewport (x y w h : Int) (s : World) : World :=
  emit (Event.viewportCall x y w h) { s with viewport := (x, y, w, h) }

def glGetString (pname : Nat) (s : World) : String × World :=
  (s.env.glStringResult pname, emit (Event.getStringCall pname) s)

/-- glGetIntegerv called with a buffer for a single GLint. -/
def glGetIntegerv1 (pname : Nat) (s : World) : Int × World :=
  (s.env.glIntResult pname, emit (Event.getIntegervCall pname 1) s)

/-- glGetIntegerv called with a buffer for two GLints (GL_MAX_VIEWPORT_DIMS). -/
def glGetIntegerv2 (pname : Nat) (s : World) : (Int × Int) × World :=
  (s.env.glIntResult2 pname, emit (Event.getIntegervCall pname 2) s)

def glGetBooleanv (pname : Nat) (s : World) : Bool × World :=
  (s.env.glBoolResult pname, emit (Event.getBooleanvCall pname) s)

def glGetStringi (pname : Nat) (index : Nat) (s : World) : String × World :=
  (s.env.glStringiResult pname index, emit (Event.getStringiCall pname index) s)

/- Callbacks. -/

/-- Callback `glfw_error_cb`: logs the GLFW error id and description. -/
def glfw_error_cb (error : Int) (description : String) (s : World) : World :=
  (log_to_debug_file g_logfilename
    [("GLFW Error id: "), toString error, (" | description: "), description] s).2

/-- Callback `fbsize_cb`: use the entire framebuffer as drawing region. -/
def fbsize_cb (pwin : Nat) (width height : Int) (s : World) : World :=
  glViewport 0 0 width height s

/-- Callback `key_cb`: the GLFW_PRESS / GLFW_REPEAT / GLFW_RELEASE branches only
print in _DEBUG builds; the window should-close flag is set when the ESC
key is pressed. -/
def key_cb (pwin : Nat) (key scancode action mods : Int) (s : World) : World :=
  if GLFW_KEY_ESCAPE = key ∧ GLFW_PRESS = action then
    glfwSetWindowShouldClose pwin true s
  else
    s

/-- Callback `mousebutton_cb`: only prints in _DEBUG builds; no observable effect. -/
def mousebutton_cb (pwin : Nat) (button action mods : Int) (s : World) : World := s

/-- Callback `mousepos_cb`: only prints in _DEBUG builds; no observable effect. -/
def mousepos_cb (pwin : Nat) (x y : Int) (s : World) : World := s

/-- Callback `mousescroll_cb`: only prints in _DEBUG builds; no observable effect. -/
def mousescroll_cb (pwin : Nat) (x y : Int) (s : World) : World := s

/-- GLFW dispatches one pending input event to the registered callback
(or handles it itself, for a close request). -/
def dispatchEvent (pwin : Nat) (e : InputEvent) (s : World) : World :=
  match e with
  | InputEvent.key k sc a m => if s.keyCbSet then key_cb pwin k sc a m s else s
  | InputEvent.mouseButton b a m =>
      if s.mouseButtonCbSet then mousebutton_cb pwin b a m s else s
  | InputEvent.cursorPos x y => if s.cursorPosCbSet then mousepos_cb pwin x y s else s
  | InputEvent.scroll x y => if s.scrollCbSet then mousescroll_cb pwin x y s else s
  | InputEvent.framebufferResize w h =>
      if s.fbsizeCbSet then fbsize_cb pwin w h s else s
  | InputEvent.closeRequest => glfwSetWindowShouldClose pwin true s

def dispatchEvents (pwin : Nat) : List InputEvent → World → World
  | [], s => s
  | e :: rest, s => dispatchEvents pwin rest (dispatchEvent pwin e s)

/-- glfwPollEvents: processes the events that have occurred and calls
the appropriate callbacks.  The model consumes the next pending batch of
the event queue.  The window parameter identifies the single window the
callbacks were registered on. -/
def glfwPollEvents (pwin : Nat) (s : World) : World :=
  let s := emit Event.pollEventsCall s
  match s.eventQueue with
  | [] => s
  | batch :: rest => dispatchEvents pwin batch { s with eventQueue := rest }

/- The program functions. -/

/-- Function `draw`: clear the color buffer, then swap the framebuffers. -/
def draw (pWindow : Nat) (s : World) : World :=
  glfwSwapBuffers pWindow (glClear GL_COLOR_BUFFER_BIT s)

/-- Function `update`: process pending events via glfwPollEvents. -/
def update (pwin : Nat) (s : World) : World := glfwPollEvents pwin s

/-- Function `init_gl_state`: set the clear color to opaque green and use the
entire framebuffer as viewport (by explicitly calling fbsize_cb). -/
def init_gl_state (pwin : Nat) (s : World) : World :=
  let s := glClearColor 0 1 0 1 s
  let r := glfwGetFramebufferSize pwin s
  fbsize_cb pwin r.1.1 r.1.2 r.2

/-- Function `cleanup`: have GLFW return resources back to the system. -/
def cleanup (pwin : Nat) (s : World) : World := glfwTerminate s

/-- Function `create_gl_context`: initialize GLFW (exiting the process on
failure), set the error callback and the context hints, create the
window (logging, terminating GLFW and exiting the process on failure),
make the context current, register the event callbacks and set the
cursor input mode.  Process exit is modelled as `Except.error` carrying
the exit status and the final world. -/
def create_gl_context (fbwd fbht : Nat) (wintitle : String) (s : World) :
    Except (Nat × World) (Nat × World) :=
  let r := glfwInit s
  if r.1 = false then
    Except.error (EXIT_FAILURE,
      (log_to_debug_file g_logfilename
        [("ERROR: Initialization of GLFW has failed - program aborted")] r.2).2)
  else
    let s := (log_to_debug_file g_logfilename
      [("GLFW Version: "), r.2.env.glfwVersionString] r.2).2
    let s := glfwSetErrorCallback s
    let s := glfwWindowHint GLFW_CONTEXT_VERSION_MAJOR 4 s
    let s := glfwWindowHint GLFW_CONTEXT_VERSION_MINOR 5 s
    let s := glfwWindowHint GLFW_OPENGL_PROFILE GLFW_OPENGL_CORE_PROFILE s
    let s := glfwWindowHint GLFW_OPENGL_FORWARD_COMPAT GLFW_TRUE s
    let s := glfwWindowHint GLFW_DOUBLEBUFFER GLFW_TRUE s
    let s := glfwWindowHint GLFW_DEPTH_BITS 24 s
    let s := glfwWindowHint GLFW_RED_BITS 8 s
    let s := glfwWindowHint GLFW_GREEN_BITS 8 s
    let s := glfwWindowHint GLFW_BLUE_BITS 8 s
    let s := glfwWindowHint GLFW_ALPHA_BITS 8 s
    let w := glfwCreateWindow fbwd fbht wintitle s
    if w.1 = 0 then
      Except.error (EXIT_FAILURE,
        glfwTerminate (log_to_debug_file g_logfilename
          [("ERROR: GLFW is unable to create an OpenGL context.\n")] w.2).2)
    else
      let s := glfwMakeContextCurrent w.1 w.2
      let s := glfwSetFramebufferSizeCallback w.1 s
      let s := glfwSetKeyCallback w.1 s
      let s := glfwSetMouseButtonCallback w.1 s
      let s := glfwSetCursorPosCallback w.1 s
      let s := glfwSetScrollCallback w.1 s
      let s := glfwSetInputMode w.1 GLFW_CURSOR GLFW_CURSOR_NORMAL s
      Except.ok (w.1, s)

/-- Function `init_gl_loader`: call glewInit; on error log and return GL_FALSE;
otherwise check GLEW_VERSION_4_5: on support log the GLEW version and
return GL_TRUE, else log and return GL_FALSE. -/
def init_gl_loader (s : World) : Bool × World :=
  let s := emit Event.glewInitCall s
  if s.env.glewInitOk = false then
    (GL_FALSE, (log_to_debug_file g_logfilename
      [("ERROR: Unable to initialize GLEW "), s.env.glewErrorString] s).2)
  else if s.env.glewSupports45 then
    let s := (log_to_debug_file g_logfilename
      [("GLEW Version: "), s.env.glewVersionString] s).2
    (GL_TRUE, (log_to_debug_file g_logfilename
      [("Graphics driver supports OpenGL version 4.5\n")] s).2)
  else
    (GL_FALSE, (log_to_debug_file g_logfilename
      [("ERROR: System doesn\x27t support GL 4.5 API\n")] s).2)

/-- The fixed table of (capability enum, label) pairs of
`query_gl_context`, in source order. -/
def params : List (Nat × String) := [
  (GL_VENDOR, ("GL_VENDOR")),
  (GL_RENDERER, ("GL_RENDERER")),
  (GL_VERSION, ("GL_VERSION")),
  (GL_SHADING_LANGUAGE_VERSION, ("GL_SHADING_LANGUAGE_VERSION")),
  (GL_MAJOR_VERSION, ("GL_MAJOR_VERSION")),
  (GL_MINOR_VERSION, ("GL_MINOR_VERSION")),
  (GL_MAX_ELEMENTS_VERTICES, ("GL_MAX_ELEMENTS_VERTICES")),
  (GL_MAX_ELEMENTS_INDICES, ("GL_MAX_ELEMENTS_INDICES")),
  (GL_MAX_GEOMETRY_OUTPUT_VERTICES, ("GL_MAX_GEOMETRY_OUTPUT_VERTICES")),
  (GL_MAX_COMBINED_TEXTURE_IMAGE_UNITS, ("GL_MAX_COMBINED_TEXTURE_IMAGE_UNITS")),
  (GL_MAX_CUBE_MAP_TEXTURE_SIZE, ("GL_MAX_CUBE_MAP_TEXTURE_SIZE")),
  (GL_MAX_DRAW_BUFFERS, ("GL_MAX_DRAW_BUFFERS")),
  (GL_MAX_FRAGMENT_UNIFORM_COMPONENTS, ("GL_MAX_FRAGMENT_UNIFORM_COMPONENTS")),
  (GL_MAX_TEXTURE_IMAGE_UNITS, ("GL_MAX_TEXTURE_IMAGE_UNITS")),
  (GL_MAX_TEXTURE_SIZE, ("GL_MAX_TEXTURE_SIZE")),
  (GL_MAX_VARYING_FLOATS, ("GL_MAX_VARYING_FLOATS")),
  (GL_MAX_VERTEX_ATTRIBS, ("GL_MAX_VERTEX_ATTRIBS")),
  (GL_MAX_VERTEX_TEXTURE_IMAGE_UNITS, ("GL_MAX_VERTEX_TEXTURE_IMAGE_UNITS")),
  (GL_MAX_VERTEX_UNIFORM_COMPONENTS, ("GL_MAX_VERTEX_UNIFORM_COMPONENTS")),
  (GL_MAX_VIEWPORT_DIMS, ("GL_MAX_VIEWPORT_DIMS")),
  (GL_STEREO, ("GL_STEREO"))]

/-- The `for (i = 0; i < 4; ++i)` loop of query_gl_context: C-string
query and log for each table index in the list. -/
def stringParamLoop : List Nat → World → World
  | [], s => s
  | i :: rest, s =>
    let pr := params.getD i (0, (""))
    let r := glGetString pr.1 s
    stringParamLoop rest (log_to_debug_file g_logfilename [pr.2, r.1] r.2).2

/-- The `for (; i < 19; ++i)` loop of query_gl_context: single-integer
query and log for each table index in the list. -/
def intParamLoop : List Nat → World → World
  | [], s => s
  | i :: rest, s =>
    let pr := params.getD i (0, (""))
    let r := glGetIntegerv1 pr.1 s
    intParamLoop rest (log_to_debug_file g_logfilename [pr.2, toString r.1] r.2).2

/-- The extension enumeration loop of query_gl_context, over the list of
extension indices `0, ..., maxExtensions - 1`. -/
def extensionLoop : List Nat → World → World
  | [], s => s
  | i :: rest, s =>
    let r := glGetStringi GL_EXTENSIONS i s
    extensionLoop rest
      (log_to_debug_file g_logfilename [toString (i + 1), (": "), r.1] r.2).2

/-- Function `query_gl_context`: log the header; string queries for table
positions 0..3; single-integer queries for positions 4..18; a
dual-integer query for position 19 (GL_MAX_VIEWPORT_DIMS); a boolean
query for position 20 (GL_STEREO, logged as a GLint cast); then the
separator and the extension enumeration. -/
def query_gl_context (s : World) : World :=
  let s := (log_to_debug_file g_logfilename
    [("GL version information and context parameters:")] s).2
  let s := stringParamLoop (List.range 4) s
  let s := intParamLoop (List.range' 4 15) s
  let pr19 := params.getD 19 (0, (""))
  let r19 := glGetIntegerv2 pr19.1 s
  let s := (log_to_debug_file g_logfilename
    [pr19.2, toString r19.1.1, toString r19.1.2] r19.2).2
  let pr20 := params.getD 20 (0, (""))
  let r20 := glGetBooleanv pr20.1 s
  let s := (log_to_debug_file g_logfilename
    [pr20.2, toString (if r20.1 then (1 : Int) else 0)] r20.2).2
  let s := (log_to_debug_file g_logfilename [("-----------------------------")] s).2
  let rext := glGetIntegerv1 GL_NUM_EXTENSIONS s
  extensionLoop (List.range rext.1.toNat) rext.2

/-- The window title string literal passed in `main`. -/
def app_title : String :=
  "init-1: OpenGL 4.5 - create debug log file and clear colorbuffer with constant color"

/-- The frame loop `while (!glfwWindowShouldClose(pWindow)) { draw; update; }`,
modelled with fuel bounding the number of iterations. -/
def frameLoop (pwin : Nat) : Nat → World → World
  | 0, s => s
  | Nat.succ n, s =>
    if glfwWindowShouldClose pwin s then s
    else frameLoop pwin n (update pwin (draw pwin s))

/-- Function `main`: create the log file (result ignored), create the context
(may exit), initialize the loader (destroying the window, terminating
GLFW and exiting with EXIT_FAILURE when it returns GL_FALSE), query the
context, initialize GL state, run the frame loop and clean up. -/
def main (fuel : Nat) (s : World) : Except (Nat × World) World :=
  let s := (create_log_file s).2
  match create_gl_context 2400 1350 app_title s with
  | Except.error e => Except.error e
  | Except.ok pws =>
    let pWindow := pws.1
    let r := init_gl_loader pws.2
    if r.1 = GL_FALSE then
      Except.error (EXIT_FAILURE, glfwTerminate (glfwDestroyWindow pWindow r.2))
    else
      let s := query_gl_context r.2
      let s := init_gl_state pWindow s
      let s := frameLoop pWindow fuel s
      Except.ok (cleanup pWindow s)

/- Definitions supporting the verified properties. -/

/-- Is the event the windowing-library initialization call? -/
def isWindowingInit : Event → Bool
  | Event.glfwInitCall => true
  | _ => false

/-- Is the event the context/window creation call? -/
def isWindowCreation : Event → Bool
  | Event.createWindowCall _ _ _ => true
  | _ => false

/-- Is the event the extension-loader initialization call? -/
def isLoaderInit : Event → Bool
  | Event.glewInitCall => true
  | _ => false

/-- Is the event a registration of one of the window event callbacks? -/
def isCallbackReg : Event → Bool
  | Event.registerCallback _ => true
  | _ => false

/-- Is the event a capability/context query call? -/
def isCapQuery : Event → Bool
  | Event.getStringCall _ => true
  | Event.getIntegervCall _ _ => true
  | Event.getBooleanvCall _ => true
  | Event.getStringiCall _ _ => true
  | _ => false

/-- Is the event one emitted by the frame loop (clear, swap, poll, or a
viewport update by the resize callback)? -/
def isFrameEvent : Event → Bool
  | Event.clearCall _ _ => true
  | Event.swapBuffersCall => true
  | Event.pollEventsCall => true
  | Event.viewportCall _ _ _ _ => true
  | _ => false

/-- Is the event a glClearColor call? -/
def isSetClearColor : Event → Bool
  | Event.clearColorCall _ _ _ _ => true
  | _ => false

/-- Is the event a glClear call? -/
def isClearEvent : Event → Bool
  | Event.clearCall _ _ => true
  | _ => false

/-- In the trace `tr`, every event satisfying `p` occurs strictly before
every event satisfying `q`. -/
def Precedes (p q : Event → Bool) (tr : List Event) : Prop :=
  ∀ i j : Nat, ∀ e f : Event, tr[i]? = some e → tr[j]? = some f →
    p e = true → q f = true → i < j

/-- The calls a successful `create_gl_context fbwd fbht wintitle` makes,
in order. -/
def ctxEvents (fbwd fbht : Nat) (wintitle : String) : List Event := [
  Event.glfwInitCall,
  Event.setErrorCallbackCall,
  Event.windowHintCall GLFW_CONTEXT_VERSION_MAJOR 4,
  Event.windowHintCall GLFW_CONTEXT_VERSION_MINOR 5,
  Event.windowHintCall GLFW_OPENGL_PROFILE GLFW_OPENGL_CORE_PROFILE,
  Event.windowHintCall GLFW_OPENGL_FORWARD_COMPAT GLFW_TRUE,
  Event.windowHintCall GLFW_DOUBLEBUFFER GLFW_TRUE,
  Event.windowHintCall GLFW_DEPTH_BITS 24,
  Event.windowHintCall GLFW_RED_BITS 8,
  Event.windowHintCall GLFW_GREEN_BITS 8,
  Event.windowHintCall GLFW_BLUE_BITS 8,
  Event.windowHintCall GLFW_ALPHA_BITS 8,
  Event.createWindowCall fbwd fbht wintitle,
  Event.makeContextCurrentCall,
  Event.registerCallback ("fbsize_cb"),
  Event.registerCallback ("key_cb"),
  Event.registerCallback ("mousebutton_cb"),
  Event.registerCallback ("mousepos_cb"),
  Event.registerCallback ("mousescroll_cb"),
  Event.setInputModeCall]

/-- The query calls the table-driven part of `query_gl_context` makes,
in table order. -/
def tableEvents : List Event := [
  Event.getStringCall GL_VENDOR,
  Event.getStringCall GL_RENDERER,
  Event.getStringCall GL_VERSION,
  Event.getStringCall GL_SHADING_LANGUAGE_VERSION,
  Event.getIntegervCall GL_MAJOR_VERSION 1,
  Event.getIntegervCall GL_MINOR_VERSION 1,
  Event.getIntegervCall GL_MAX_ELEMENTS_VERTICES 1,
  Event.getIntegervCall GL_MAX_ELEMENTS_INDICES 1,
  Event.getIntegervCall GL_MAX_GEOMETRY_OUTPUT_VERTICES 1,
  Event.getIntegervCall GL_MAX_COMBINED_TEXTURE_IMAGE_UNITS 1,
  Event.getIntegervCall GL_MAX_CUBE_MAP_TEXTURE_SIZE 1,
  Event.getIntegervCall GL_MAX_DRAW_BUFFERS 1,
  Event.getIntegervCall GL_MAX_FRAGMENT_UNIFORM_COMPONENTS 1,
  Event.getIntegervCall GL_MAX_TEXTURE_IMAGE_UNITS 1,
  Event.getIntegervCall GL_MAX_TEXTURE_SIZE 1,
  Event.getIntegervCall GL_MAX_VARYING_FLOATS 1,
  Event.getIntegervCall GL_MAX_VERTEX_ATTRIBS 1,
  Event.getIntegervCall GL_MAX_VERTEX_TEXTURE_IMAGE_UNITS 1,
  Event.getIntegervCall GL_MAX_VERTEX_UNIFORM_COMPONENTS 1,
  Event.getIntegervCall GL_MAX_VIEWPORT_DIMS 2,
  Event.getBooleanvCall GL_STEREO]

/-- The extension-enumeration query calls, one per reported extension. -/
def extEvents (env : Env) : List Event :=
  (List.range (env.glIntResult GL_NUM_EXTENSIONS).toNat).map
    (fun i => Event.getStringiCall GL_EXTENSIONS i)

/-- The four query forms the specification names. -/
inductive QueryForm where
  | stringForm
  | intForm
  | dualIntForm
  | boolForm
deriving DecidableEq

/-- Modelled from the spec: the query form claimed for each table
position — string queries for positions 0 through 3, single-integer
queries for positions 4 through 18, a dual-integer query for position
19, and a boolean query for position 20. -/
def spec_form (i : Nat) : QueryForm :=
  if i ≤ 3 then QueryForm.stringForm
  else if i ≤ 18 then QueryForm.intForm
  else if i = 19 then QueryForm.dualIntForm
  else QueryForm.boolForm

/-- The query form a trace event realizes, if any. -/
def formOf : Event → Option QueryForm
  | Event.getStringCall _ => some QueryForm.stringForm
  | Event.getIntegervCall _ 1 => some QueryForm.intForm
  | Event.getIntegervCall _ 2 => some QueryForm.dualIntForm
  | Event.getBooleanvCall _ => some QueryForm.boolForm
  | _ => none

/-- The capability enum a query trace event asks about, if any. -/
def enumOf : Event → Option Nat
  | Event.getStringCall p => some p
  | Event.getIntegervCall p _ => some p
  | Event.getBooleanvCall p => some p
  | Event.getStringiCall p _ => some p
  | _ => none

/-- The trace of a (possibly exiting) run. -/
def traceOf : Except (Nat × World) World → List Event
  | Except.ok w => w.trace
  | Except.error e => e.2.trace

/-- A concrete environment in which every library call succeeds. -/
def env0 : Env := {
  glfwInitOk := true, createWindowOk := true, glewInitOk := true,
  glewSupports45 := true, logOpenable := true,
  currentTime := ("Sat Oct 11 12:00:00 2026"), buildDate := ("Oct 11 2026"),
  buildTime := ("12:00:00"),
  glfwVersionString := ("3.3.8 X11 GLX"), glewVersionString := ("2.1.0"),
  glewErrorString := ("no error"),
  glStringResult := fun _ => ("s"), glIntResult := fun _ => 0,
  glIntResult2 := fun _ => (0, 0), glBoolResult := fun _ => false,
  glStringiResult := fun _ _ => ("ext"), fbWidth := 2400, fbHeight := 1350 }

/-- The concrete program start state over `env0`. -/
def world0 : World := {
  env := env0, shouldClose := false, clearColor := (0, 0, 0, 0),
  viewport := (0, 0, 0, 0), errorCbSet := false, fbsizeCbSet := false,
  keyCbSet := false, mouseButtonCbSet := false, cursorPosCbSet := false,
  scrollCbSet := false, hints := [], contextCurrent := 0, eventQueue := [],
  logLines := [], stderrLines := [], trace := [] }

/-- A copy of `world0` with the flag that makes the frame loop exit at once. -/
def worldClosed : World := { world0 with shouldClose := true }

/-- An environment in which the log file cannot be opened but every
library call succeeds. -/
def worldNoLog : World := { world0 with env := { env0 with logOpenable := false } }

/-- Concrete failing environments, one per failure kind. -/
def worldGlfwFail : World := { world0 with env := { env0 with glfwInitOk := false } }

def worldWindowFail : World :=
  { world0 with env := { env0 with createWindowOk := false } }

def worldGlewFail : World := { world0 with env := { env0 with glewInitOk := false } }

def worldNo45 : World := { world0 with env := { env0 with glewSupports45 := false } }

/-- The world `create_gl_context` returns on the all-success start state. -/
def ctxWorld0 : World :=
  match create_gl_context 2400 1350 app_title world0 with
  | Except.ok pw => pw.2
  | Except.error e => e.2

/- Generic helper lemmas. -/

theorem mem_of_get? {α : Type} {l : List α} {n : Nat} {a : α}
    (h : l[n]? = some a) : a ∈ l := by
  obtain ⟨hl, rfl⟩ := List.getElem?_eq_some.mp h
  exact List.getElem_mem hl

/-- If no event of the first `n` positions satisfies `q` and no event from
position `n` on satisfies `p`, then every `p`-event precedes every
`q`-event. -/
theorem precedes_of_take_drop (p q : Event → Bool) (tr : List Event) (n : Nat)
    (h1 : ∀ e ∈ tr.take n, q e = false) (h2 : ∀ e ∈ tr.drop n, p e = false) :
    Precedes p q tr := by
  intro i j e f hi hj hp hq
  have hilt : i < n := by
    by_contra hge
    have hge' : n ≤ i := Nat.le_of_not_lt hge
    have : (tr.drop n)[i - n]? = some e := by
      rw [List.getElem?_drop]
      rwa [Nat.add_sub_cancel' hge']
    have := h2 e (mem_of_get? this)
    rw [hp] at this
    exact absurd this (by decide)
  have hjge : n ≤ j := by
    by_contra hlt
    have hlt' : j < n := Nat.lt_of_not_le hlt
    have : (tr.take n)[j]? = some f := by
      rw [List.getElem?_take]
      simp [hlt', hj]
    have := h1 f (mem_of_get? this)
    rw [hq] at this
    exact absurd this (by decide)
  exact Nat.lt_of_lt_of_le hilt hjge

/- State-preservation lemmas for the logging helpers. -/

theorem log_env (f : String) (a : List String) (s : World) :
    ((log_to_debug_file f a s).2).env = s.env := by
  by_cases h : s.env.logOpenable = false <;> simp [log_to_debug_file, h]

theorem log_trace (f : String) (a : List String) (s : World) :
    ((log_to_debug_file f a s).2).trace = s.trace := by
  by_cases h : s.env.logOpenable = false <;> simp [log_to_debug_file, h]

theorem log_shouldClose (f : String) (a : List String) (s : World) :
    ((log_to_debug_file f a s).2).shouldClose = s.shouldClose := by
  by_cases h : s.env.logOpenable = false <;> simp [log_to_debug_file, h]

theorem log_clearColor (f : String) (a : List String) (s : World) :
    ((log_to_debug_file f a s).2).clearColor = s.clearColor := by
  by_cases h : s.env.logOpenable = false <;> simp [log_to_debug_file, h]

theorem log_eventQueue (f : String) (a : List String) (s : World) :
    ((log_to_debug_file f a s).2).eventQueue = s.eventQueue := by
  by_cases h : s.env.logOpenable = false <;> simp [log_to_debug_file, h]

theorem log_logLines_ext (f : String) (a : List String) (s : World) :
    ∃ ls, ((log_to_debug_file f a s).2).logLines = s.logLines ++ ls := by
  by_cases h : s.env.logOpenable = false
  · exact ⟨[], by simp [log_to_debug_file, h]⟩
  · exact ⟨[joinSpaced a], by simp [log_to_debug_file, h, openFileContents]⟩

theorem create_log_file_env (s : World) :
    ((create_log_file s).2).env = s.env := by
  by_cases h : s.env.logOpenable = false <;> simp [create_log_file, h]

theorem create_log_file_trace (s : World) :
    ((create_log_file s).2).trace = s.trace := by
  by_cases h : s.env.logOpenable = false <;> simp [create_log_file, h]

/- Trace lemmas for the query loops. -/

theorem stringParamLoop_env (is : List Nat) : ∀ s : World,
    (stringParamLoop is s).env = s.env := by
  induction is with
  | nil => intro s; rfl
  | cons i rest ih =>
    intro s
    simp [stringParamLoop, ih, log_env, glGetString, emit]

theorem stringParamLoop_trace (is : List Nat) : ∀ s : World,
    (stringParamLoop is s).trace = s.trace ++
      is.map (fun i => Event.getStringCall (params.getD i (0, (""))).1) := by
  induction is with
  | nil => intro s; simp [stringParamLoop]
  | cons i rest ih =>
    intro s
    simp [stringParamLoop, ih, log_trace, glGetString, emit]

theorem intParamLoop_env (is : List Nat) : ∀ s : World,
    (intParamLoop is s).env = s.env := by
  induction is with
  | nil => intro s; rfl
  | cons i rest ih =>
    intro s
    simp [intParamLoop, ih, log_env, glGetIntegerv1, emit]

theorem intParamLoop_trace (is : List Nat) : ∀ s : World,
    (intParamLoop is s).trace = s.trace ++
      is.map (fun i => Event.getIntegervCall (params.getD i (0, (""))).1 1) := by
  induction is with
  | nil => intro s; simp [intParamLoop]
  | cons i rest ih =>
    intro s
    simp [intParamLoop, ih, log_trace, glGetIntegerv1, emit]

theorem extensionLoop_env (is : List Nat) : ∀ s : World,
    (extensionLoop is s).env = s.env := by
  induction is with
  | nil => intro s; rfl
  | cons i rest ih =>
    intro s
    simp [extensionLoop, ih, log_env, glGetStringi, emit]

theorem extensionLoop_trace (is : List Nat) : ∀ s : World,
    (extensionLoop is s).trace = s.trace ++
      is.map (fun i => Event.getStringiCall GL_EXTENSIONS i) := by
  induction is with
  | nil => intro s; simp [extensionLoop]
  | cons i rest ih =>
    intro s
    simp [extensionLoop, ih, log_trace, glGetStringi, emit]

/- Trace and environment lemmas for query_gl_context. -/

theorem query_gl_context_env (s : World) :
    (query_gl_context s).env = s.env := by
  simp [query_gl_context, extensionLoop_env, log_env, glGetIntegerv1,
    glGetIntegerv2, glGetBooleanv, emit, intParamLoop_env, stringParamLoop_env]

theorem query_gl_context_trace (s : World) :
    (query_gl_context s).trace = s.trace ++ tableEvents ++
      [Event.getIntegervCall GL_NUM_EXTENSIONS 1] ++ extEvents s.env := by
  have e1 : (List.range 4).map
      (fun i => Event.getStringCall (params.getD i (0, (""))).1) =
      [Event.getStringCall GL_VENDOR, Event.getStringCall GL_RENDERER,
       Event.getStringCall GL_VERSION,
       Event.getStringCall GL_SHADING_LANGUAGE_VERSION] := by decide
  have e2 : (List.range' 4 15).map
      (fun i => Event.getIntegervCall (params.getD i (0, (""))).1 1) =
      [Event.getIntegervCall GL_MAJOR_VERSION 1,
       Event.getIntegervCall GL_MINOR_VERSION 1,
       Event.getIntegervCall GL_MAX_ELEMENTS_VERTICES 1,
       Event.getIntegervCall GL_MAX_ELEMENTS_INDICES 1,
       Event.getIntegervCall GL_MAX_GEOMETRY_OUTPUT_VERTICES 1,
       Event.getIntegervCall GL_MAX_COMBINED_TEXTURE_IMAGE_UNITS 1,
       Event.getIntegervCall GL_MAX_CUBE_MAP_TEXTURE_SIZE 1,
       Event.getIntegervCall GL_MAX_DRAW_BUFFERS 1,
       Event.getIntegervCall GL_MAX_FRAGMENT_UNIFORM_COMPONENTS 1,
       Event.getIntegervCall GL_MAX_TEXTURE_IMAGE_UNITS 1,
       Event.getIntegervCall GL_MAX_TEXTURE_SIZE 1,
       Event.getIntegervCall GL_MAX_VARYING_FLOATS 1,
       Event.getIntegervCall GL_MAX_VERTEX_ATTRIBS 1,
       Event.getIntegervCall GL_MAX_VERTEX_TEXTURE_IMAGE_UNITS 1,
       Event.getIntegervCall GL_MAX_VERTEX_UNIFORM_COMPONENTS 1] := by decide
  simp only [query_gl_context, extensionLoop_trace, log_trace, log_env,
    glGetIntegerv1, glGetIntegerv2, glGetBooleanv, emit, intParamLoop_trace,
    intParamLoop_env, stringParamLoop_trace, stringParamLoop_env, extEvents]
  rw [e1, e2]
  simp [tableEvents, params, List.append_assoc]

/- init_gl_state lemmas. -/

theorem init_gl_state_trace (p : Nat) (s : World) :
    (init_gl_state p s).trace = s.trace ++
      [Event.clearColorCall 0 1 0 1,
       Event.viewportCall 0 0 s.env.fbWidth s.env.fbHeight] := by
  simp [init_gl_state, glClearColor, glfwGetFramebufferSize, fbsize_cb,
    glViewport, emit]

theorem init_gl_state_env (p : Nat) (s : World) :
    (init_gl_state p s).env = s.env := by
  simp [init_gl_state, glClearColor, glfwGetFramebufferSize, fbsize_cb,
    glViewport, emit]

theorem init_gl_state_clearColor (p : Nat) (s : World) :
    (init_gl_state p s).clearColor = (0, 1, 0, 1) := by
  simp [init_gl_state, glClearColor, glfwGetFramebufferSize, fbsize_cb,
    glViewport, emit]

/- Dispatch lemmas: dispatching input events emits at most viewport
events and never changes the clear color. -/

theorem dispatchEvent_clearColor (p : Nat) (e : InputEvent) (s : World) :
    (dispatchEvent p e s).clearColor = s.clearColor := by
  cases e <;>
    simp only [dispatchEvent, key_cb, mousebutton_cb, mousepos_cb,
      mousescroll_cb, fbsize_cb, glfwSetWindowShouldClose, glViewport, emit] <;>
    repeat' first | rfl | split

theorem dispatchEvent_trace (p : Nat) (e : InputEvent) (s : World) :
    ∃ t, (dispatchEvent p e s).trace = s.trace ++ t ∧
      ∀ x ∈ t, ∃ a b c d, x = Event.viewportCall a b c d := by
  cases e
  case key k sc a m =>
    by_cases h : s.keyCbSet <;>
      by_cases h2 : (GLFW_KEY_ESCAPE = k ∧ GLFW_PRESS = a) <;>
      exact ⟨[], by simp [dispatchEvent, key_cb, glfwSetWindowShouldClose, h, h2]⟩
  case mouseButton b a m =>
    by_cases h : s.mouseButtonCbSet <;>
      exact ⟨[], by simp [dispatchEvent, mousebutton_cb, h]⟩
  case cursorPos x y =>
    by_cases h : s.cursorPosCbSet <;>
      exact ⟨[], by simp [dispatchEvent, mousepos_cb, h]⟩
  case scroll x y =>
    by_cases h : s.scrollCbSet <;>
      exact ⟨[], by simp [dispatchEvent, mousescroll_cb, h]⟩
  case framebufferResize w h =>
    by_cases hc : s.fbsizeCbSet
    · refine ⟨[Event.viewportCall 0 0 w h], ?_, by simp⟩
      simp [dispatchEvent, fbsize_cb, glViewport, emit, hc]
    · exact ⟨[], by simp [dispatchEvent, hc]⟩
  case closeRequest =>
    exact ⟨[], by simp [dispatchEvent, glfwSetWindowShouldClose]⟩

theorem dispatchEvents_clearColor (p : Nat) (es : List InputEvent) :
    ∀ s : World, (dispatchEvents p es s).clearColor = s.clearColor := by
  induction es with
  | nil => intro s; rfl
  | cons e rest ih =>
    intro s
    simp [dispatchEvents, ih, dispatchEvent_clearColor]

theorem dispatchEvents_trace (p : Nat) (es : List InputEvent) :
    ∀ s : World, ∃ t, (dispatchEvents p es s).trace = s.trace ++ t ∧
      ∀ x ∈ t, ∃ a b c d, x = Event.viewportCall a b c d := by
  induction es with
  | nil => intro s; exact ⟨[], by simp [dispatchEvents]⟩
  | cons e rest ih =>
    intro s
    obtain ⟨t1, ht1, hv1⟩ := dispatchEvent_trace p e s
    obtain ⟨t2, ht2, hv2⟩ := ih (dispatchEvent p e s)
    refine ⟨t1 ++ t2, ?_, ?_⟩
    · simp [dispatchEvents, ht2, ht1, List.append_assoc]
    · intro x hx
      rcases List.mem_append.mp hx with hx | hx
      · exact hv1 x hx
      · exact hv2 x hx

/- Frame-step lemmas. -/

theorem draw_trace (p : Nat) (s : World) :
    (draw p s).trace = s.trace ++
      [Event.clearCall GL_COLOR_BUFFER_BIT s.clearColor,
       Event.swapBuffersCall] := by
  simp [draw, glClear, glfwSwapBuffers, emit]

theorem draw_clearColor (p : Nat) (s : World) :
    (draw p s).clearColor = s.clearColor := by
  simp [draw, glClear, glfwSwapBuffers, emit]

theorem update_trace (p : Nat) (s : World) :
    ∃ t, (update p s).trace = s.trace ++ [Event.pollEventsCall] ++ t ∧
      ∀ x ∈ t, ∃ a b c d, x = Event.viewportCall a b c d := by
  cases hq : s.eventQueue with
  | nil =>
    refine ⟨[], ?_, by simp⟩
    simp [update, glfwPollEvents, emit, hq]
  | cons batch rest =>
    obtain ⟨t, ht, hv⟩ := dispatchEvents_trace p batch
      { s with eventQueue := rest, trace := s.trace ++ [Event.pollEventsCall] }
    refine ⟨t, ?_, hv⟩
    simp only [update, glfwPollEvents, emit, hq]
    rw [ht]

theorem update_clearColor (p : Nat) (s : World) :
    (update p s).clearColor = s.clearColor := by
  cases hq : s.eventQueue with
  | nil => simp [update, glfwPollEvents, emit, hq]
  | cons batch rest =>
    simp only [update, glfwPollEvents, emit, hq]
    rw [dispatchEvents_clearColor]

/-- The events the frame loop appends are frame events; every clear uses
the clear color in effect at loop entry, and the clear color is never
changed by the loop. -/
theorem frameLoop_spec (p : Nat) : ∀ (n : Nat) (s : World), ∃ t,
    (frameLoop p n s).trace = s.trace ++ t ∧
    (∀ x ∈ t, isFrameEvent x = true) ∧
    (∀ m c, Event.clearCall m c ∈ t → c = s.clearColor) ∧
    (frameLoop p n s).clearColor = s.clearColor := by
  intro n
  induction n with
  | zero => intro s; exact ⟨[], by simp [frameLoop]⟩
  | succ n ih =>
    intro s
    by_cases hc : s.shouldClose
    · refine ⟨[], ?_⟩
      simp [frameLoop, glfwWindowShouldClose, hc]
    · have hstep : frameLoop p (n + 1) s = frameLoop p n (update p (draw p s)) := by
        rw [frameLoop]
        simp [glfwWindowShouldClose, hc]
      obtain ⟨t2, ht2, hv2⟩ := update_trace p (draw p s)
      obtain ⟨t3, ht3, hf3, hcc3, hcol3⟩ := ih (update p (draw p s))
      refine ⟨[Event.clearCall GL_COLOR_BUFFER_BIT s.clearColor,
          Event.swapBuffersCall, Event.pollEventsCall] ++ t2 ++ t3, ?_, ?_, ?_, ?_⟩
      · rw [hstep, ht3, ht2, draw_trace]
        simp [List.append_assoc]
      · intro x hx
        rcases List.mem_append.mp hx with hx | hx
        · rcases List.mem_append.mp hx with hx | hx
          · simp only [List.mem_cons, List.not_mem_nil, or_false] at hx
            rcases hx with rfl | rfl | rfl <;> simp [isFrameEvent]
          · obtain ⟨a, b, c, d, rfl⟩ := hv2 x hx
            simp [isFrameEvent]
        · exact hf3 x hx
      · intro m c hmem
        rcases List.mem_append.mp hmem with hx | hx
        · rcases List.mem_append.mp hx with hx | hx
          · simp only [List.mem_cons, List.not_mem_nil, or_false] at hx
            rcases hx with hx | hx | hx
            · exact (Event.clearCall.injEq _ _ _ _).mp hx |>.2
            · cases hx
            · cases hx
          · obtain ⟨a, b, c', d, he⟩ := hv2 _ hx
            cases he
        · have := hcc3 m c hx
          rw [this, update_clearColor, draw_clearColor]
      · rw [hstep, hcol3, update_clearColor, draw_clearColor]

/- Projection lemmas for the GLFW/GL wrapper primitives.  Each wrapper
is an `emit` composed with one record update, so these are definitional. -/

theorem emit_env (e : Event) (s : World) : (emit e s).env = s.env := rfl

theorem emit_trace (e : Event) (s : World) :
    (emit e s).trace = s.trace ++ [e] := rfl

theorem emit_logLines (e : Event) (s : World) :
    (emit e s).logLines = s.logLines := rfl

theorem glfwInit_fst (s : World) : (glfwInit s).1 = s.env.glfwInitOk := rfl

theorem glfwInit_snd_env (s : World) : (glfwInit s).2.env = s.env := rfl

theorem glfwInit_snd_trace (s : World) :
    (glfwInit s).2.trace = s.trace ++ [Event.glfwInitCall] := rfl

theorem glfwInit_snd_logLines (s : World) :
    (glfwInit s).2.logLines = s.logLines := rfl

theorem glfwSetErrorCallback_env (s : World) :
    (glfwSetErrorCallback s).env = s.env := rfl

theorem glfwSetErrorCallback_trace (s : World) :
    (glfwSetErrorCallback s).trace = s.trace ++ [Event.setErrorCallbackCall] := rfl

theorem glfwSetErrorCallback_logLines (s : World) :
    (glfwSetErrorCallback s).logLines = s.logLines := rfl

theorem glfwWindowHint_env (h : Nat) (v : Int) (s : World) :
    (glfwWindowHint h v s).env = s.env := rfl

theorem glfwWindowHint_trace (h : Nat) (v : Int) (s : World) :
    (glfwWindowHint h v s).trace = s.trace ++ [Event.windowHintCall h v] := rfl

theorem glfwWindowHint_logLines (h : Nat) (v : Int) (s : World) :
    (glfwWindowHint h v s).logLines = s.logLines := rfl

theorem glfwCreateWindow_fst (w h : Nat) (t : String) (s : World) :
    (glfwCreateWindow w h t s).1 =
      (if s.env.createWindowOk then 1 else 0) := rfl

theorem glfwCreateWindow_snd_env (w h : Nat) (t : String) (s : World) :
    (glfwCreateWindow w h t s).2.env = s.env := rfl

theorem glfwCreateWindow_snd_trace (w h : Nat) (t : String) (s : World) :
    (glfwCreateWindow w h t s).2.trace =
      s.trace ++ [Event.createWindowCall w h t] := rfl

theorem glfwCreateWindow_snd_logLines (w h : Nat) (t : String) (s : World) :
    (glfwCreateWindow w h t s).2.logLines = s.logLines := rfl

theorem glfwMakeContextCurrent_env (p : Nat) (s : World) :
    (glfwMakeContextCurrent p s).env = s.env := rfl

theorem glfwMakeContextCurrent_trace (p : Nat) (s : World) :
    (glfwMakeContextCurrent p s).trace =
      s.trace ++ [Event.makeContextCurrentCall] := rfl

theorem glfwMakeContextCurrent_logLines (p : Nat) (s : World) :
    (glfwMakeContextCurrent p s).logLines = s.logLines := rfl

theorem glfwSetFramebufferSizeCallback_env (p : Nat) (s : World) :
    (glfwSetFramebufferSizeCallback p s).env = s.env := rfl

theorem glfwSetFramebufferSizeCallback_trace (p : Nat) (s : World) :
    (glfwSetFramebufferSizeCallback p s).trace =
      s.trace ++ [Event.registerCallback ("fbsize_cb")] := rfl

theorem glfwSetFramebufferSizeCallback_logLines (p : Nat) (s : World) :
    (glfwSetFramebufferSizeCallback p s).logLines = s.logLines := rfl

theorem glfwSetKeyCallback_env (p : Nat) (s : World) :
    (glfwSetKeyCallback p s).env = s.env := rfl

theorem glfwSetKeyCallback_trace (p : Nat) (s : World) :
    (glfwSetKeyCallback p s).trace =
      s.trace ++ [Event.registerCallback ("key_cb")] := rfl

theorem glfwSetKeyCallback_logLines (p : Nat) (s : World) :
    (glfwSetKeyCallback p s).logLines = s.logLines := rfl

theorem glfwSetMouseButtonCallback_env (p : Nat) (s : World) :
    (glfwSetMouseButtonCallback p s).env = s.env := rfl

theorem glfwSetMouseButtonCallback_trace (p : Nat) (s : World) :
    (glfwSetMouseButtonCallback p s).trace =
      s.trace ++ [Event.registerCallback ("mousebutton_cb")] := rfl

theorem glfwSetMouseButtonCallback_logLines (p : Nat) (s : World) :
    (glfwSetMouseButtonCallback p s).logLines = s.logLines := rfl

theorem glfwSetCursorPosCallback_env (p : Nat) (s : World) :
    (glfwSetCursorPosCallback p s).env = s.env := rfl

theorem glfwSetCursorPosCallback_trace (p : Nat) (s : World) :
    (glfwSetCursorPosCallback p s).trace =
      s.trace ++ [Event.registerCallback ("mousepos_cb")] := rfl

theorem glfwSetCursorPosCallback_logLines (p : Nat) (s : World) :
    (glfwSetCursorPosCallback p s).logLines = s.logLines := rfl

theorem glfwSetScrollCallback_env (p : Nat) (s : World) :
    (glfwSetScrollCallback p s).env = s.env := rfl

theorem glfwSetScrollCallback_trace (p : Nat) (s : World) :
    (glfwSetScrollCallback p s).trace =
      s.trace ++ [Event.registerCallback ("mousescroll_cb")] := rfl

theorem glfwSetScrollCallback_logLines (p : Nat) (s : World) :
    (glfwSetScrollCallback p s).logLines = s.logLines := rfl

theorem glfwSetInputMode_env (p : Nat) (m : Nat) (v : Int) (s : World) :
    (glfwSetInputMode p m v s).env = s.env := rfl

theorem glfwSetInputMode_trace (p : Nat) (m : Nat) (v : Int) (s : World) :
    (glfwSetInputMode p m v s).trace =
      s.trace ++ [Event.setInputModeCall] := rfl

theorem glfwSetInputMode_logLines (p : Nat) (m : Nat) (v : Int) (s : World) :
    (glfwSetInputMode p m v s).logLines = s.logLines := rfl

theorem glfwTerminate_env (s : World) : (glfwTerminate s).env = s.env := rfl

theorem glfwTerminate_trace (s : World) :
    (glfwTerminate s).trace = s.trace ++ [Event.glfwTerminateCall] := rfl

theorem glfwTerminate_logLines (s : World) :
    (glfwTerminate s).logLines = s.logLines := rfl

theorem glfwDestroyWindow_env (p : Nat) (s : World) :
    (glfwDestroyWindow p s).env = s.env := rfl

theorem glfwDestroyWindow_trace (p : Nat) (s : World) :
    (glfwDestroyWindow p s).trace = s.trace ++ [Event.destroyWindowCall] := rfl

theorem glfwDestroyWindow_logLines (p : Nat) (s : World) :
    (glfwDestroyWindow p s).logLines = s.logLines := rfl

/- Success-path lemmas for the initialization phases. -/

theorem create_gl_context_ok (wd ht : Nat) (ti : String) (s : World)
    (h1 : s.env.glfwInitOk = true) (h2 : s.env.createWindowOk = true) :
    ∃ s', create_gl_context wd ht ti s = Except.ok (1, s') ∧
      s'.env = s.env ∧ s'.trace = s.trace ++ ctxEvents wd ht ti ∧
      (∃ ls, s'.logLines = s.logLines ++ ls) := by
  simp only [create_gl_context]
  rw [glfwInit_fst, h1]
  simp only [Bool.true_eq_false, if_false]
  rw [glfwCreateWindow_fst]
  simp only [glfwWindowHint_env, glfwSetErrorCallback_env, log_env,
    glfwInit_snd_env, h2, if_true]
  simp only [Nat.one_ne_zero, if_false]
  refine ⟨_, rfl, ?_, ?_, ?_⟩
  · simp only [glfwSetInputMode_env, glfwSetScrollCallback_env,
      glfwSetCursorPosCallback_env, glfwSetMouseButtonCallback_env,
      glfwSetKeyCallback_env, glfwSetFramebufferSizeCallback_env,
      glfwMakeContextCurrent_env, glfwCreateWindow_snd_env,
      glfwWindowHint_env, glfwSetErrorCallback_env, log_env, glfwInit_snd_env]
  · simp only [glfwSetInputMode_trace, glfwSetScrollCallback_trace,
      glfwSetCursorPosCallback_trace, glfwSetMouseButtonCallback_trace,
      glfwSetKeyCallback_trace, glfwSetFramebufferSizeCallback_trace,
      glfwMakeContextCurrent_trace, glfwCreateWindow_snd_trace,
      glfwWindowHint_trace, glfwSetErrorCallback_trace, log_trace,
      glfwInit_snd_trace, ctxEvents]
    simp [List.append_assoc]
  · obtain ⟨ls, hls⟩ := log_logLines_ext g_logfilename
      [("GLFW Version: "), s.env.glfwVersionString] (glfwInit s).2
    refine ⟨ls, ?_⟩
    simp only [glfwSetInputMode_logLines, glfwSetScrollCallback_logLines,
      glfwSetCursorPosCallback_logLines, glfwSetMouseButtonCallback_logLines,
      glfwSetKeyCallback_logLines, glfwSetFramebufferSizeCallback_logLines,
      glfwMakeContextCurrent_logLines, glfwCreateWindow_snd_logLines,
      glfwWindowHint_logLines, glfwSetErrorCallback_logLines]
    rw [hls, glfwInit_snd_logLines]

theorem init_gl_loader_ok (s : World)
    (h1 : s.env.glewInitOk = true) (h2 : s.env.glewSupports45 = true) :
    (init_gl_loader s).1 = GL_TRUE ∧
      ((init_gl_loader s).2).env = s.env ∧
      ((init_gl_loader s).2).trace = s.trace ++ [Event.glewInitCall] := by
  refine ⟨?_, ?_, ?_⟩ <;>
    simp [init_gl_loader, h1, h2, emit, log_env, log_trace, GL_TRUE]

/-- The successful run of main: the full trace decomposition. -/
theorem main_ok (fuel : Nat) (s : World)
    (h1 : s.env.glfwInitOk = true) (h2 : s.env.createWindowOk = true)
    (h3 : s.env.glewInitOk = true) (h4 : s.env.glewSupports45 = true) :
    ∃ w ltail, main fuel s = Except.ok w ∧
      w.trace = s.trace ++ ctxEvents 2400 1350 app_title ++
        [Event.glewInitCall] ++ tableEvents ++
        [Event.getIntegervCall GL_NUM_EXTENSIONS 1] ++ extEvents s.env ++
        [Event.clearColorCall 0 1 0 1,
         Event.viewportCall 0 0 s.env.fbWidth s.env.fbHeight] ++ ltail ++
        [Event.glfwTerminateCall] ∧
      (∀ x ∈ ltail, isFrameEvent x = true) ∧
      (∀ m c, Event.clearCall m c ∈ ltail → c = (0, 1, 0, 1)) := by
  have hle := create_log_file_env s
  have hlt := create_log_file_trace s
  obtain ⟨s2, hctx, henv2, htr2, _⟩ := create_gl_context_ok 2400 1350 app_title
    (create_log_file s).2 (by rw [hle]; exact h1) (by rw [hle]; exact h2)
  have hld := init_gl_loader_ok s2 (by rw [henv2, hle]; exact h3)
    (by rw [henv2, hle]; exact h4)
  obtain ⟨hld1, hld2, hld3⟩ := hld
  set s3 := (init_gl_loader s2).2 with hs3
  have hqe := query_gl_context_env s3
  have hqt := query_gl_context_trace s3
  set s4 := query_gl_context s3 with hs4
  have hie := init_gl_state_env 1 s4
  have hit := init_gl_state_trace 1 s4
  have hic := init_gl_state_clearColor 1 s4
  set s5 := init_gl_state 1 s4 with hs5
  obtain ⟨ltail, hflt, hflf, hflc, _⟩ := frameLoop_spec 1 fuel s5
  refine ⟨cleanup 1 (frameLoop 1 fuel s5), ltail, ?_, ?_, hflf, ?_⟩
  · simp only [main, hctx]
    rw [hld1]
    simp [GL_TRUE, GL_FALSE]
  · simp only [cleanup, glfwTerminate, emit]
    rw [hflt, hit, hqt, hld3, htr2, hlt]
    rw [hqe, hld2, henv2, hle]
  · intro m c hm
    have := hflc m c hm
    rw [this, hic]

/- Further logging and failure-path lemmas. -/

theorem log_logLines_open (f : String) (a : List String) (s : World)
    (h : s.env.logOpenable = true) :
    ((log_to_debug_file f a s).2).logLines = s.logLines ++ [joinSpaced a] := by
  simp [log_to_debug_file, h, openFileContents]

theorem log_fst_open (f : String) (a : List String) (s : World)
    (h : s.env.logOpenable = true) : (log_to_debug_file f a s).1 = true := by
  simp [log_to_debug_file, h]

theorem log_fst_closed (f : String) (a : List String) (s : World)
    (h : s.env.logOpenable = false) : (log_to_debug_file f a s).1 = false := by
  simp [log_to_debug_file, h]

theorem precedes_append (p q : Event → Bool) (xs ys : List Event)
    (hq : ∀ e ∈ xs, q e = false) (hp : ∀ e ∈ ys, p e = false) :
    Precedes p q (xs ++ ys) := by
  apply precedes_of_take_drop p q _ xs.length
  · rw [List.take_left]; exact hq
  · rw [List.drop_left]; exact hp

theorem mem_extEvents {env : Env} {e : Event} (h : e ∈ extEvents env) :
    ∃ i, e = Event.getStringiCall GL_EXTENSIONS i := by
  simp only [extEvents, List.mem_map, List.mem_range] at h
  obtain ⟨i, _, rfl⟩ := h
  exact ⟨i, rfl⟩

/-- A frame-loop event is none of the setup calls. -/
theorem frameEvent_not_setup (x : Event) (h : isFrameEvent x = true) :
    isWindowingInit x = false ∧ isWindowCreation x = false ∧
    isCallbackReg x = false ∧ isLoaderInit x = false ∧
    isCapQuery x = false ∧ isSetClearColor x = false := by
  cases x <;>
    first
    | exact ⟨rfl, rfl, rfl, rfl, rfl, rfl⟩
    | exact absurd h (by simp [isFrameEvent])

theorem create_gl_context_glfwFail (wd ht : Nat) (ti : String) (s : World)
    (h1 : s.env.glfwInitOk = false) :
    create_gl_context wd ht ti s = Except.error (EXIT_FAILURE,
      (log_to_debug_file g_logfilename
        [("ERROR: Initialization of GLFW has failed - program aborted")]
        (glfwInit s).2).2) := by
  simp only [create_gl_context]
  rw [glfwInit_fst, h1]
  simp

theorem create_gl_context_windowFail (wd ht : Nat) (ti : String) (s : World)
    (h1 : s.env.glfwInitOk = true) (h2 : s.env.createWindowOk = false) :
    ∃ w', create_gl_context wd ht ti s = Except.error (EXIT_FAILURE, w') ∧
      w'.env = s.env ∧
      w'.trace = s.trace ++ [Event.glfwInitCall, Event.setErrorCallbackCall,
        Event.windowHintCall GLFW_CONTEXT_VERSION_MAJOR 4,
        Event.windowHintCall GLFW_CONTEXT_VERSION_MINOR 5,
        Event.windowHintCall GLFW_OPENGL_PROFILE GLFW_OPENGL_CORE_PROFILE,
        Event.windowHintCall GLFW_OPENGL_FORWARD_COMPAT GLFW_TRUE,
        Event.windowHintCall GLFW_DOUBLEBUFFER GLFW_TRUE,
        Event.windowHintCall GLFW_DEPTH_BITS 24,
        Event.windowHintCall GLFW_RED_BITS 8,
        Event.windowHintCall GLFW_GREEN_BITS 8,
        Event.windowHintCall GLFW_BLUE_BITS 8,
        Event.windowHintCall GLFW_ALPHA_BITS 8,
        Event.createWindowCall wd ht ti, Event.glfwTerminateCall] ∧
      (s.env.logOpenable = true →
        joinSpaced [("ERROR: GLFW is unable to create an OpenGL context.\n")] ∈
          w'.logLines) := by
  simp only [create_gl_context]
  rw [glfwInit_fst, h1]
  simp only [Bool.true_eq_false, if_false]
  rw [glfwCreateWindow_fst]
  simp only [glfwWindowHint_env, glfwSetErrorCallback_env, log_env,
    glfwInit_snd_env, h2, Bool.false_eq_true, if_false]
  rw [if_pos trivial]
  refine ⟨_, rfl, ?_, ?_, ?_⟩
  · simp only [glfwTerminate_env, log_env, glfwCreateWindow_snd_env,
      glfwWindowHint_env, glfwSetErrorCallback_env, glfwInit_snd_env]
  · simp only [glfwTerminate_trace, log_trace, glfwCreateWindow_snd_trace,
      glfwWindowHint_trace, glfwSetErrorCallback_trace, log_trace,
      glfwInit_snd_trace]
    simp [List.append_assoc]
  · intro hop
    rw [glfwTerminate_logLines, log_logLines_open]
    · exact List.mem_append_right _ (by simp)
    · simp only [glfwCreateWindow_snd_env, glfwWindowHint_env,
        glfwSetErrorCallback_env, log_env, glfwInit_snd_env]
      exact hop

theorem init_gl_loader_fail (s : World)
    (h : s.env.glewInitOk = false ∨
      (s.env.glewInitOk = true ∧ s.env.glewSupports45 = false)) :
    (init_gl_loader s).1 = GL_FALSE ∧
      ((init_gl_loader s).2).env = s.env ∧
      ((init_gl_loader s).2).trace = s.trace ++ [Event.glewInitCall] ∧
      (s.env.logOpenable = true →
        ∃ l ∈ ((init_gl_loader s).2).logLines, ∃ r, l = ("ERROR") ++ r) := by
  rcases h with h | ⟨h, h45⟩
  · refine ⟨?_, ?_, ?_, ?_⟩
    · simp [init_gl_loader, h, emit]
    · simp [init_gl_loader, h, emit, log_env]
    · simp [init_gl_loader, h, emit, log_trace]
    · intro hop
      refine ⟨joinSpaced [("ERROR: Unable to initialize GLEW "),
        s.env.glewErrorString], ?_, ?_⟩
      · simp only [init_gl_loader, emit_env, h, eq_self_iff_true, if_true]
        rw [log_logLines_open]
        · simp
        · simp only [emit_env]
          exact hop
      · refine ⟨(": Unable to initialize GLEW  ") ++
          (s.env.glewErrorString ++ (" ")), ?_⟩
        have hstep : joinSpaced [("ERROR: Unable to initialize GLEW "),
            s.env.glewErrorString] =
            (("") ++ (("ERROR: Unable to initialize GLEW ") ++ (" "))) ++
              (s.env.glewErrorString ++ (" ")) := rfl
        rw [hstep, String.empty_append]
        have hc : ("ERROR: Unable to initialize GLEW ") ++ (" ") =
            ("ERROR") ++ (": Unable to initialize GLEW  ") := by decide
        rw [hc, String.append_assoc]
  · refine ⟨?_, ?_, ?_, ?_⟩
    · simp [init_gl_loader, h, h45, emit]
    · simp [init_gl_loader, h, h45, emit, log_env]
    · simp [init_gl_loader, h, h45, emit, log_trace]
    · intro hop
      refine ⟨joinSpaced [("ERROR: System doesn\x27t support GL 4.5 API\n")],
        ?_, ?_⟩
      · simp only [init_gl_loader, emit_env, h, h45, Bool.true_eq_false,
          Bool.false_eq_true, if_false]
        rw [log_logLines_open]
        · simp
        · simp only [emit_env]
          exact hop
      · exact ⟨(": System doesn\x27t support GL 4.5 API\n "), by decide⟩

/-- No event after the context-creation segment of a successful run is a
windowing-library init, a window creation, or a callback registration. -/
theorem suff_no_ctx_kinds (senv : Env) (fw fh : Int) (ltail : List Event)
    (hframe : ∀ x ∈ ltail, isFrameEvent x = true) :
    ∀ e ∈ [Event.glewInitCall] ++ tableEvents ++
        [Event.getIntegervCall GL_NUM_EXTENSIONS 1] ++ extEvents senv ++
        [Event.clearColorCall 0 1 0 1, Event.viewportCall 0 0 fw fh] ++
        ltail ++ [Event.glfwTerminateCall],
      isWindowingInit e = false ∧ isWindowCreation e = false ∧
        isCallbackReg e = false := by
  intro e he
  simp only [List.append_assoc, List.mem_append] at he
  rcases he with he | he | he | he | he | he | he
  · simp only [List.mem_singleton] at he
    subst he; exact ⟨rfl, rfl, rfl⟩
  · exact (by decide : ∀ x ∈ tableEvents, isWindowingInit x = false ∧
      isWindowCreation x = false ∧ isCallbackReg x = false) e he
  · simp only [List.mem_singleton] at he
    subst he; exact ⟨rfl, rfl, rfl⟩
  · obtain ⟨i, rfl⟩ := mem_extEvents he
    exact ⟨rfl, rfl, rfl⟩
  · simp only [List.mem_cons, List.not_mem_nil, or_false] at he
    rcases he with rfl | rfl <;> exact ⟨rfl, rfl, rfl⟩
  · have h := frameEvent_not_setup e (hframe e he)
    exact ⟨h.1, h.2.1, h.2.2.1⟩
  · simp only [List.mem_singleton] at he
    subst he; exact ⟨rfl, rfl, rfl⟩

/-- No event after the loader-init call of a successful run is the
loader-init call. -/
theorem suff_no_loader (senv : Env) (fw fh : Int) (ltail : List Event)
    (hframe : ∀ x ∈ ltail, isFrameEvent x = true) :
    ∀ e ∈ tableEvents ++
        [Event.getIntegervCall GL_NUM_EXTENSIONS 1] ++ extEvents senv ++
        [Event.clearColorCall 0 1 0 1, Event.viewportCall 0 0 fw fh] ++
        ltail ++ [Event.glfwTerminateCall],
      isLoaderInit e = false := by
  intro e he
  simp only [List.append_assoc, List.mem_append] at he
  rcases he with he | he | he | he | he | he
  · exact (by decide : ∀ x ∈ tableEvents, isLoaderInit x = false) e he
  · simp only [List.mem_singleton] at he
    subst he; rfl
  · obtain ⟨i, rfl⟩ := mem_extEvents he
    rfl
  · simp only [List.mem_cons, List.not_mem_nil, or_false] at he
    rcases he with rfl | rfl <;> rfl
  · exact (frameEvent_not_setup e (hframe e he)).2.2.2.1
  · simp only [List.mem_singleton] at he
    subst he; rfl

/- Claim theorems. -/

/-- C2: While the window's should-close flag is false, each frame-loop
iteration clears the color buffer, swaps the front and back buffers, and
then polls/dispatches input events (in that order); the loop terminates
as soon as the should-close flag becomes true (a loop entered with the
flag set performs no work). -/
theorem claim_C2 (p n : Nat) (s : World) :
    (s.shouldClose = true → frameLoop p n s = s) ∧
    (s.shouldClose = false →
      frameLoop p (n + 1) s = frameLoop p n (update p (draw p s))) ∧
    (∃ t, (update p (draw p s)).trace = s.trace ++
        [Event.clearCall GL_COLOR_BUFFER_BIT s.clearColor,
         Event.swapBuffersCall, Event.pollEventsCall] ++ t ∧
      ∀ x ∈ t, isFrameEvent x = true) := by
  refine ⟨?_, ?_, ?_⟩
  · intro h
    cases n <;> simp [frameLoop, glfwWindowShouldClose, h]
  · intro h
    rw [frameLoop]
    simp [glfwWindowShouldClose, h]
  · obtain ⟨t, ht, hv⟩ := update_trace p (draw p s)
    refine ⟨t, ?_, ?_⟩
    · rw [ht, draw_trace]
      simp [List.append_assoc]
    · intro x hx
      obtain ⟨a, b, c, d, rfl⟩ := hv x hx
      rfl

/-- C2 witness: a loop entered with the flag set returns at once, and
one iteration of the loop steps through draw then update. -/
theorem claim_C2_witness :
    frameLoop 1 5 worldClosed = worldClosed ∧
    frameLoop 1 1 world0 = frameLoop 1 0 (update 1 (draw 1 world0)) :=
  ⟨(claim_C2 1 5 worldClosed).1 rfl, (claim_C2 1 0 world0).2.1 rfl⟩

/-- C3: the logging helper, given the printed forms of its arguments,
writes them space-separated as one line to the log file and returns true
when the file can be opened; when it cannot be opened it reports to
standard error, leaves the log unchanged and returns false; and in
either case the caller is not terminated — a run whose library calls
succeed reaches the normal return even when the log is unopenable. -/
theorem claim_C3 (args : List String) (s : World) :
    (s.env.logOpenable = true →
      (log_to_debug_file g_logfilename args s).1 = true ∧
      ((log_to_debug_file g_logfilename args s).2).logLines =
        s.logLines ++ [joinSpaced args] ∧
      ((log_to_debug_file g_logfilename args s).2).stderrLines =
        s.stderrLines) ∧
    (s.env.logOpenable = false →
      (log_to_debug_file g_logfilename args s).1 = false ∧
      ((log_to_debug_file g_logfilename args s).2).logLines = s.logLines ∧
      ((log_to_debug_file g_logfilename args s).2).stderrLines =
        s.stderrLines ++ [("ERROR: could not open log file ") ++
          g_logfilename ++ (" for writing")]) ∧
    (∀ fuel, s.env.glfwInitOk = true → s.env.createWindowOk = true →
      s.env.glewInitOk = true → s.env.glewSupports45 = true →
      ∃ w, main fuel s = Except.ok w) := by
  refine ⟨?_, ?_, ?_⟩
  · intro h
    exact ⟨log_fst_open _ _ _ h, log_logLines_open _ _ _ h,
      by simp [log_to_debug_file, h]⟩
  · intro h
    exact ⟨log_fst_closed _ _ _ h, by simp [log_to_debug_file, h],
      by simp [log_to_debug_file, h]⟩
  · intro fuel h1 h2 h3 h4
    obtain ⟨w, _, hw, _⟩ := main_ok fuel s h1 h2 h3 h4
    exact ⟨w, hw⟩

/-- C3 witness: concrete openable and unopenable log files. -/
theorem claim_C3_witness :
    (log_to_debug_file g_logfilename [("a"), ("b")] world0).1 = true ∧
    (log_to_debug_file g_logfilename [("a"), ("b")] worldNoLog).1 = false ∧
    (∃ w, main 1 worldNoLog = Except.ok w) :=
  ⟨((claim_C3 [("a"), ("b")] world0).1 rfl).1,
   ((claim_C3 [("a"), ("b")] worldNoLog).2.1 rfl).1,
   (claim_C3 [("a"), ("b")] worldNoLog).2.2 1 rfl rfl rfl rfl⟩

/-- C6: create_log_file opens the log file in truncate mode (the
resulting contents do not depend on the previous contents), writes the
current-time line and the build-stamp line (plus the trailing blank
line), and returns GL_TRUE; when the file cannot be opened it reports to
standard error and returns GL_FALSE without writing. -/
theorem claim_C6 (s : World) :
    (s.env.logOpenable = true →
      (create_log_file s).1 = GL_TRUE ∧
      ((create_log_file s).2).logLines =
        [("OpenGL Application Log File local time: ") ++ s.env.currentTime,
         ("Build version: ") ++ s.env.buildDate ++ (" ") ++ s.env.buildTime,
         ("")] ∧
      ((create_log_file s).2).stderrLines = s.stderrLines) ∧
    (s.env.logOpenable = false →
      (create_log_file s).1 = GL_FALSE ∧
      ((create_log_file s).2).logLines = s.logLines ∧
      ((create_log_file s).2).stderrLines = s.stderrLines ++
        [("ERROR: could not open log file ") ++ g_logfilename ++
          (" for writing")]) := by
  constructor
  · intro h
    refine ⟨?_, ?_, ?_⟩ <;>
      simp [create_log_file, h, openFileContents, GL_TRUE]
  · intro h
    refine ⟨?_, ?_, ?_⟩ <;> simp [create_log_file, h, GL_FALSE]

/-- C6 witness: concrete openable and unopenable log files. -/
theorem claim_C6_witness :
    (create_log_file world0).1 = GL_TRUE ∧
    (create_log_file worldNoLog).1 = GL_FALSE ∧
    ((create_log_file worldNoLog).2).logLines = worldNoLog.logLines :=
  ⟨((claim_C6 world0).1 rfl).1, ((claim_C6 worldNoLog).2 rfl).1,
   ((claim_C6 worldNoLog).2 rfl).2.1⟩

/-- C7: every call of log_to_debug_file only extends the log file (the
open mode is append, `OpenMode.app`, under which opening preserves the
old contents), and when the file is openable it appends exactly one
line; previously written lines are never overwritten. -/
theorem claim_C7 (f : String) (args : List String) (s : World) :
    (∃ t, ((log_to_debug_file f args s).2).logLines = s.logLines ++ t) ∧
    (s.env.logOpenable = true →
      ((log_to_debug_file f args s).2).logLines =
        openFileContents OpenMode.app s.logLines ++ [joinSpaced args] ∧
      openFileContents OpenMode.app s.logLines = s.logLines) :=
  ⟨log_logLines_ext f args s,
   fun h => ⟨by rw [log_logLines_open f args s h]; rfl, rfl⟩⟩

/-- C7 witness: a concrete call appends exactly its one line. -/
theorem claim_C7_witness :
    ((log_to_debug_file g_logfilename [("x")] world0).2).logLines =
      openFileContents OpenMode.app world0.logLines ++
        [joinSpaced [("x")]] :=
  ((claim_C7 g_logfilename [("x")] world0).2 rfl).1

/-- C8: the keyboard callback sets the window's should-close flag when
the ESC key is pressed, and for every other key/action combination it
leaves the whole state unchanged. -/
theorem claim_C8 (p : Nat) (k sc a m : Int) (s : World) :
    ((k = GLFW_KEY_ESCAPE ∧ a = GLFW_PRESS) →
      (key_cb p k sc a m s).shouldClose = true) ∧
    (¬(k = GLFW_KEY_ESCAPE ∧ a = GLFW_PRESS) → key_cb p k sc a m s = s) := by
  constructor
  · rintro ⟨rfl, rfl⟩
    simp [key_cb, glfwSetWindowShouldClose]
  · intro h
    have h' : ¬(GLFW_KEY_ESCAPE = k ∧ GLFW_PRESS = a) := by
      rintro ⟨h1, h2⟩
      exact h ⟨h1.symm, h2.symm⟩
    simp [key_cb, h']

/-- C8 witness: ESC press (key 256, action 1) sets the flag; another
key (65) pressed, and ESC released (action 0), leave the state alone. -/
theorem claim_C8_witness :
    (key_cb 1 256 0 1 0 world0).shouldClose = true ∧
    key_cb 1 65 0 1 0 world0 = world0 ∧
    key_cb 1 256 0 0 0 world0 = world0 :=
  ⟨(claim_C8 1 256 0 1 0 world0).1 (by exact ⟨by decide, by decide⟩),
   (claim_C8 1 65 0 1 0 world0).2 (by rintro ⟨h, _⟩; exact absurd h (by decide)),
   (claim_C8 1 256 0 0 0 world0).2 (by rintro ⟨_, h⟩; exact absurd h (by decide))⟩

/-- C9: whenever create_gl_context returns (rather than exiting the
process), the returned window handle is non-null. -/
theorem claim_C9 (wd ht : Nat) (ti : String) (s : World) (p : Nat)
    (s' : World) (h : create_gl_context wd ht ti s = Except.ok (p, s')) :
    p ≠ 0 := by
  by_cases h1 : s.env.glfwInitOk = true
  · by_cases h2 : s.env.createWindowOk = true
    · obtain ⟨s'', heq, _⟩ := create_gl_context_ok wd ht ti s h1 h2
      rw [heq] at h
      simp only [Except.ok.injEq, Prod.mk.injEq] at h
      omega
    · have h2' : s.env.createWindowOk = false := by
        cases hb : s.env.createWindowOk
        · rfl
        · exact absurd hb h2
      obtain ⟨w', heq, _⟩ := create_gl_context_windowFail wd ht ti s h1 h2'
      rw [heq] at h
      cases h
  · have h1' : s.env.glfwInitOk = false := by
      cases hb : s.env.glfwInitOk
      · rfl
      · exact absurd hb h1
    have heq := create_gl_context_glfwFail wd ht ti s h1'
    rw [heq] at h
    cases h

/-- C9 witness: the concrete all-success run returns handle 1 ≠ 0. -/
theorem claim_C9_witness :
    create_gl_context 2400 1350 app_title world0 =
      Except.ok (1, ctxWorld0) ∧ (1 : Nat) ≠ 0 :=
  ⟨rfl, claim_C9 2400 1350 app_title world0 1 ctxWorld0 rfl⟩

/-- C4: query_gl_context iterates the fixed 21-entry table `params` and
dispatches purely by table position: its trace is the table-order query
calls (then the extension enumeration), and the query form realized at
each position is exactly the one the specification assigns — string for
0..3, single-integer for 4..18, dual-integer for 19, boolean for 20 —
with the queried enum being the table entry at that position. -/
theorem claim_C4 :
    params.length = 21 ∧
    (∀ s : World, (query_gl_context s).trace = s.trace ++ tableEvents ++
      [Event.getIntegervCall GL_NUM_EXTENSIONS 1] ++ extEvents s.env) ∧
    tableEvents.map formOf = (List.range 21).map (fun i => some (spec_form i)) ∧
    tableEvents.map enumOf = params.map (fun pr => some pr.1) :=
  ⟨by decide, query_gl_context_trace, by decide, by decide⟩

/-- A split lemma for the traces of this program: if the first `n`
events of the context segment contain no `q`-event, and everything after
position `n` — the rest of the context segment and the whole suffix —
contains no `p`-event, then every `p`-event precedes every `q`-event. -/
theorem precedes_main_trace (p q : Event → Bool) (ctx suff : List Event)
    (n : Nat) (hn : n ≤ ctx.length)
    (h1 : ∀ e ∈ ctx.take n, q e = false)
    (h2 : ∀ e ∈ ctx.drop n, p e = false)
    (h3 : ∀ e ∈ suff, p e = false) :
    Precedes p q (ctx ++ suff) := by
  apply precedes_of_take_drop p q _ n
  · rw [List.take_append_of_le_length hn]
    exact h1
  · rw [List.drop_append_of_le_length hn]
    intro e he
    rcases List.mem_append.mp he with he | he
    · exact h2 e he
    · exact h3 e he

/-- C1 counterexample: on the concrete all-success run, the claim that
every event-callback registration comes after every capability query is
false — the run registers its callbacks (e.g. trace position 14) before
it performs any capability query (e.g. trace position 21). -/
theorem claim_C1_counterexample :
    ¬ Precedes isCapQuery isCallbackReg (traceOf (main 0 world0)) := by
  intro h
  have h21 : (traceOf (main 0 world0))[21]? =
      some (Event.getStringCall GL_VENDOR) := by decide
  have h14 : (traceOf (main 0 world0))[14]? =
      some (Event.registerCallback ("fbsize_cb")) := by decide
  have := h 21 14 _ _ h21 h14 rfl rfl
  omega

/-- C1 amended: on every successful run the initialization calls are
ordered windowing-library init, then context/window creation, then
event-callback registration, then extension-loader init, then
capability query — in particular callback registration happens before
(not after) the loader init and the capability query. -/
theorem claim_C1_amended (fuel : Nat) (s : World)
    (h1 : s.env.glfwInitOk = true) (h2 : s.env.createWindowOk = true)
    (h3 : s.env.glewInitOk = true) (h4 : s.env.glewSupports45 = true)
    (h0 : s.trace = []) :
    ∃ w, main fuel s = Except.ok w ∧
      Precedes isWindowingInit isWindowCreation w.trace ∧
      Precedes isWindowCreation isCallbackReg w.trace ∧
      Precedes isCallbackReg isLoaderInit w.trace ∧
      Precedes isLoaderInit isCapQuery w.trace := by
  obtain ⟨w, ltail, hw, htr, hframe, _⟩ := main_ok fuel s h1 h2 h3 h4
  rw [h0] at htr
  have ht1 : w.trace = ctxEvents 2400 1350 app_title ++
      ([Event.glewInitCall] ++ (tableEvents ++
        ([Event.getIntegervCall GL_NUM_EXTENSIONS 1] ++ (extEvents s.env ++
          ([Event.clearColorCall 0 1 0 1,
            Event.viewportCall 0 0 s.env.fbWidth s.env.fbHeight] ++
            (ltail ++ [Event.glfwTerminateCall])))))) := by
    rw [htr]
    simp [List.append_assoc]
  have hsuff := suff_no_ctx_kinds s.env s.env.fbWidth s.env.fbHeight ltail hframe
  refine ⟨w, hw, ?_, ?_, ?_, ?_⟩
  · rw [ht1]
    refine precedes_main_trace _ _ _ _ 1 (by decide) (by decide) (by decide) ?_
    intro e he
    exact (hsuff e (by simpa [List.append_assoc] using he)).1
  · rw [ht1]
    refine precedes_main_trace _ _ _ _ 14 (by decide) (by decide) (by decide) ?_
    intro e he
    exact (hsuff e (by simpa [List.append_assoc] using he)).2.1
  · rw [ht1]
    refine precedes_main_trace _ _ _ _ 20 (by decide) (by decide) (by decide) ?_
    intro e he
    exact (hsuff e (by simpa [List.append_assoc] using he)).2.2
  · have ht2 : w.trace = (ctxEvents 2400 1350 app_title ++
        [Event.glewInitCall]) ++ (tableEvents ++
          ([Event.getIntegervCall GL_NUM_EXTENSIONS 1] ++ (extEvents s.env ++
            ([Event.clearColorCall 0 1 0 1,
              Event.viewportCall 0 0 s.env.fbWidth s.env.fbHeight] ++
              (ltail ++ [Event.glfwTerminateCall]))))) := by
      rw [htr]
      simp [List.append_assoc]
    rw [ht2]
    refine precedes_main_trace _ _ _ _ 21 (by decide) (by decide) (by decide) ?_
    intro e he
    exact suff_no_loader s.env s.env.fbWidth s.env.fbHeight ltail hframe e
      (by simpa [List.append_assoc] using he)

/-- C1 amended witness: the concrete all-success run satisfies the
amended ordering. -/
theorem claim_C1_amended_witness :
    ∃ w, main 0 world0 = Except.ok w ∧
      Precedes isWindowingInit isWindowCreation w.trace ∧
      Precedes isWindowCreation isCallbackReg w.trace ∧
      Precedes isCallbackReg isLoaderInit w.trace ∧
      Precedes isLoaderInit isCapQuery w.trace :=
  claim_C1_amended 0 world0 rfl rfl rfl rfl rfl

/-- C5: whenever windowing-library init fails, window/context creation
fails, glewInit fails, or OpenGL 4.5 is unsupported, main ends as
`Except.error` with the nonzero status EXIT_FAILURE — the modelled
`std::exit` — after at most one pass: the trace contains no frame-loop
event (the loop is never entered, so there are no retries), and when the
log file is openable the failure has been logged as a line starting with
ERROR. -/
theorem claim_C5 (fuel : Nat) (s : World) (h0 : s.trace = [])
    (h : s.env.glfwInitOk = false ∨ s.env.createWindowOk = false ∨
      s.env.glewInitOk = false ∨ s.env.glewSupports45 = false) :
    ∃ w, main fuel s = Except.error (EXIT_FAILURE, w) ∧ EXIT_FAILURE ≠ 0 ∧
      (∀ e ∈ w.trace, isFrameEvent e = false) ∧
      (s.env.logOpenable = true →
        ∃ l ∈ w.logLines, ∃ r, l = ("ERROR") ++ r) := by
  cases hA : s.env.glfwInitOk with
  | false =>
    have hfail := create_gl_context_glfwFail 2400 1350 app_title
      (create_log_file s).2 (by rw [create_log_file_env]; exact hA)
    refine ⟨(log_to_debug_file g_logfilename
        [("ERROR: Initialization of GLFW has failed - program aborted")]
        (glfwInit (create_log_file s).2).2).2, ?_, by decide, ?_, ?_⟩
    · simp only [main, hfail]
    · intro e he
      rw [log_trace, glfwInit_snd_trace, create_log_file_trace, h0] at he
      simp only [List.nil_append, List.mem_singleton] at he
      subst he
      rfl
    · intro hop
      refine ⟨joinSpaced
        [("ERROR: Initialization of GLFW has failed - program aborted")],
        ?_, ?_⟩
      · rw [log_logLines_open]
        · exact List.mem_append_right _ (by simp)
        · rw [glfwInit_snd_env, create_log_file_env]
          exact hop
      · exact ⟨(": Initialization of GLFW has failed - program aborted "),
          by decide⟩
  | true =>
    cases hB : s.env.createWindowOk with
    | false =>
      obtain ⟨w', heq, henv, htrw, hlog⟩ := create_gl_context_windowFail
        2400 1350 app_title (create_log_file s).2
        (by rw [create_log_file_env]; exact hA)
        (by rw [create_log_file_env]; exact hB)
      refine ⟨w', ?_, by decide, ?_, ?_⟩
      · simp only [main, heq]
      · intro e he
        rw [htrw, create_log_file_trace, h0] at he
        simp only [List.nil_append] at he
        exact (by decide : ∀ x ∈ [Event.glfwInitCall,
          Event.setErrorCallbackCall,
          Event.windowHintCall GLFW_CONTEXT_VERSION_MAJOR 4,
          Event.windowHintCall GLFW_CONTEXT_VERSION_MINOR 5,
          Event.windowHintCall GLFW_OPENGL_PROFILE GLFW_OPENGL_CORE_PROFILE,
          Event.windowHintCall GLFW_OPENGL_FORWARD_COMPAT GLFW_TRUE,
          Event.windowHintCall GLFW_DOUBLEBUFFER GLFW_TRUE,
          Event.windowHintCall GLFW_DEPTH_BITS 24,
          Event.windowHintCall GLFW_RED_BITS 8,
          Event.windowHintCall GLFW_GREEN_BITS 8,
          Event.windowHintCall GLFW_BLUE_BITS 8,
          Event.windowHintCall GLFW_ALPHA_BITS 8,
          Event.createWindowCall 2400 1350 app_title,
          Event.glfwTerminateCall], isFrameEvent x = false) e he
      · intro hop
        refine ⟨joinSpaced
          [("ERROR: GLFW is unable to create an OpenGL context.\n")],
          hlog (by rw [create_log_file_env]; exact hop), ?_⟩
        exact ⟨(": GLFW is unable to create an OpenGL context.\n "), by decide⟩
    | true =>
      obtain ⟨s2, hctx, henv2, htr2, _⟩ := create_gl_context_ok 2400 1350
        app_title (create_log_file s).2
        (by rw [create_log_file_env]; exact hA)
        (by rw [create_log_file_env]; exact hB)
      have hloadfail : s2.env.glewInitOk = false ∨
          (s2.env.glewInitOk = true ∧ s2.env.glewSupports45 = false) := by
        rw [henv2, create_log_file_env]
        cases hC : s.env.glewInitOk with
        | false => exact Or.inl rfl
        | true =>
          cases hD : s.env.glewSupports45 with
          | false => exact Or.inr ⟨rfl, rfl⟩
          | true =>
            rcases h with h | h | h | h <;> simp_all
      obtain ⟨hl1, hl2, hl3, hl4⟩ := init_gl_loader_fail s2 hloadfail
      refine ⟨glfwTerminate (glfwDestroyWindow 1 (init_gl_loader s2).2),
        ?_, by decide, ?_, ?_⟩
      · simp only [main, hctx]
        rw [hl1]
        simp [GL_FALSE]
      · intro e he
        rw [glfwTerminate_trace, glfwDestroyWindow_trace, hl3, htr2,
          create_log_file_trace, h0] at he
        simp only [List.nil_append, List.append_assoc,
          List.singleton_append] at he
        exact (by decide : ∀ x ∈ ctxEvents 2400 1350 app_title ++
          (Event.glewInitCall :: Event.destroyWindowCall ::
            [Event.glfwTerminateCall]), isFrameEvent x = false) e he
      · intro hop
        obtain ⟨l, hmem, hr⟩ := hl4
          (by rw [henv2, create_log_file_env]; exact hop)
        refine ⟨l, ?_, hr⟩
        rw [glfwTerminate_logLines, glfwDestroyWindow_logLines]
        exact hmem

/-- C5 witness: each of the four failure kinds on a concrete start
state terminates with EXIT_FAILURE. -/
theorem claim_C5_witness :
    (∃ w, main 1 worldGlfwFail = Except.error (EXIT_FAILURE, w) ∧
      EXIT_FAILURE ≠ 0 ∧ (∀ e ∈ w.trace, isFrameEvent e = false) ∧
      (worldGlfwFail.env.logOpenable = true →
        ∃ l ∈ w.logLines, ∃ r, l = ("ERROR") ++ r)) ∧
    (∃ w, main 1 worldWindowFail = Except.error (EXIT_FAILURE, w) ∧
      EXIT_FAILURE ≠ 0 ∧ (∀ e ∈ w.trace, isFrameEvent e = false) ∧
      (worldWindowFail.env.logOpenable = true →
        ∃ l ∈ w.logLines, ∃ r, l = ("ERROR") ++ r)) ∧
    (∃ w, main 1 worldGlewFail = Except.error (EXIT_FAILURE, w) ∧
      EXIT_FAILURE ≠ 0 ∧ (∀ e ∈ w.trace, isFrameEvent e = false) ∧
      (worldGlewFail.env.logOpenable = true →
        ∃ l ∈ w.logLines, ∃ r, l = ("ERROR") ++ r)) ∧
    (∃ w, main 1 worldNo45 = Except.error (EXIT_FAILURE, w) ∧
      EXIT_FAILURE ≠ 0 ∧ (∀ e ∈ w.trace, isFrameEvent e = false) ∧
      (worldNo45.env.logOpenable = true →
        ∃ l ∈ w.logLines, ∃ r, l = ("ERROR") ++ r)) :=
  ⟨claim_C5 1 worldGlfwFail rfl (Or.inl rfl),
   claim_C5 1 worldWindowFail rfl (Or.inr (Or.inl rfl)),
   claim_C5 1 worldGlewFail rfl (Or.inr (Or.inr (Or.inl rfl))),
   claim_C5 1 worldNo45 rfl (Or.inr (Or.inr (Or.inr rfl)))⟩

/-- C10: on every successful run the clear color is set exactly once in
the whole trace, to opaque green (0, 1, 0, 1) — by init_gl_state — and
every glClear of every frame-loop iteration clears with exactly that
color. -/
theorem claim_C10 (fuel : Nat) (s : World)
    (h1 : s.env.glfwInitOk = true) (h2 : s.env.createWindowOk = true)
    (h3 : s.env.glewInitOk = true) (h4 : s.env.glewSupports45 = true)
    (h0 : s.trace = []) :
    ∃ w, main fuel s = Except.ok w ∧
      w.trace.filter isSetClearColor = [Event.clearColorCall 0 1 0 1] ∧
      (∀ m c, Event.clearCall m c ∈ w.trace → c = (0, 1, 0, 1)) := by
  obtain ⟨w, ltail, hw, htr, hframe, hclear⟩ := main_ok fuel s h1 h2 h3 h4
  refine ⟨w, hw, ?_, ?_⟩
  · rw [htr, h0]
    have hext : (extEvents s.env).filter isSetClearColor = [] := by
      rw [List.filter_eq_nil_iff]
      intro a ha
      obtain ⟨i, rfl⟩ := mem_extEvents ha
      simp [isSetClearColor]
    have hlt : ltail.filter isSetClearColor = [] := by
      rw [List.filter_eq_nil_iff]
      intro a ha
      have hns := (frameEvent_not_setup a (hframe a ha)).2.2.2.2.2
      simp [hns]
    have hctxf : (ctxEvents 2400 1350 app_title).filter isSetClearColor =
        [] := by decide
    have htabf : tableEvents.filter isSetClearColor = [] := by decide
    simp only [List.nil_append, List.filter_append, hext, hlt, hctxf, htabf]
    simp [isSetClearColor, List.filter]
  · intro m c hm
    rw [htr, h0] at hm
    simp only [List.nil_append, List.append_assoc, List.mem_append] at hm
    rcases hm with hm | hm | hm | hm | hm | hm | hm | hm
    · simp [ctxEvents] at hm
    · simp at hm
    · simp [tableEvents] at hm
    · simp at hm
    · obtain ⟨i, hh⟩ := mem_extEvents hm
      simp at hh
    · simp only [List.mem_cons, List.not_mem_nil, or_false] at hm
      rcases hm with hm | hm <;> simp at hm
    · exact hclear m c hm
    · simp at hm

/-- C10 witness: the concrete all-success run sets the clear color once
to green. -/
theorem claim_C10_witness :
    ∃ w, main 0 world0 = Except.ok w ∧
      w.trace.filter isSetClearColor = [Event.clearColorCall 0 1 0 1] ∧
      (∀ m c, Event.clearCall m c ∈ w.trace → c = (0, 1, 0, 1)) :=
  claim_C10 0 world0 rfl rfl rfl rfl rfl

end Lab2